import Mathlib

/-!
Shallow embedding of the request-validation core of the text-generation
inference router (`router/src/validation.rs`), together with theorems
checking the specification's claims about it.

Machine integers are modelled as `Nat` with explicit `% 2^32` where the
source performs a truncating `as u32` cast; `usize` saturating subtraction
is Lean's truncated `Nat` subtraction; the unchecked `usize` subtraction in
the `MaxNewTokens` error path is modelled by `checkedSub`, with `none`
standing for the panic an underflow would cause, and the `u32` addition in
the no-tokenizer budget check wraps modulo `2^32` as it does in release
builds.  `f32` parameters are
modelled as `ℚ`: the source only compares them against the exact literals
0.0, 1.0, -2.0 and 2.0 and passes them through unchanged, so the rational
model is faithful on every non-NaN float.  External collaborators (the
`tokenizers` crate, `serde_json`, the `jsonschema` crate and the grammar
compilation worker pool) are modelled as function-valued fields of the
`Validation` record; the async channel plumbing of the real struct reduces,
for one request, to calling the function the worker computes.
-/

namespace TGI

/-- Truncating `as u32` cast on `usize`/`isize` values. -/
def u32cast (n : Nat) : Nat := n % 2 ^ 32

/-- Rust's unchecked `usize` subtraction `a - b`: `none` models the panic
(or wrap) on underflow. -/
def checkedSub (a b : Nat) : Option Nat := if b ≤ a then some (a - b) else none

/-- `serde_json::Value`. -/
inductive Json where
  | null : Json
  | bool (b : Bool) : Json
  | num (q : ℚ) : Json
  | str (s : String) : Json
  | arr (xs : List Json) : Json
  | obj (kvs : List (String × Json)) : Json

/-- Is the value a `Value::String`? -/
def Json.isStr : Json → Bool
  | .str _ => true
  | _ => false

/-- Is the value a `Value::Object`? -/
def Json.isObj : Json → Bool
  | .obj _ => true
  | _ => false

/-- The `GrammarType` of the router's request schema: a JSON-Schema payload
or a raw regex. -/
inductive GrammarType where
  | json (v : Json) : GrammarType
  | regex (s : String) : GrammarType

/-- The protobuf `GrammarType` enum sent to the shards. -/
inductive ProtoGrammarType where
  | none : ProtoGrammarType
  | json : ProtoGrammarType
  | regex : ProtoGrammarType
deriving DecidableEq

/-- The protobuf `StatesToTokenMaps` message. -/
structure StatesToTokenMaps where
  start_states : List Nat
  tokens : List Nat
  end_states : List Nat
deriving DecidableEq

/-- `BTreeMap<u32, BTreeMap<u32, u32>>`, the raw FSM transition map returned
by the grammar compiler, modelled as an association list. -/
abbrev StateTokenMaps := List (Nat × List (Nat × Nat))

/-- The validation error taxonomy (`enum ValidationError`). -/
inductive ValidationError where
  | BestOf (max : Nat) (got : Nat)
  | BestOfDisabled
  | BestOfSampling
  | BestOfSeed
  | BestOfStream
  | TopNTokens (max : Nat) (got : Nat)
  | TopNTokensDisabled
  | PrefillDetailsStream
  | Temperature
  | RepetitionPenalty
  | FrequencyPenalty
  | TopP
  | TopK
  | Truncate (max : Nat) (got : Nat)
  | TypicalP
  | UnsetMaxNewTokens
  | NegativeMaxNewTokens
  | MaxNewTokens (max : Nat) (got : Nat)
  | MaxTotalTokens (max : Nat) (input_len : Nat) (new_tokens : Nat)
  | InputLength (max : Nat) (got : Nat)
  | EmptyInput
  | StopSequence (max : Nat) (got : Nat)
  | Tokenizer (msg : String)
  | Grammar
  | InvalidGrammar (msg : String)
deriving DecidableEq

/-- The `thiserror` display strings of `ValidationError` (used by the
source's `e.to_string()` when wrapping a grammar-pool failure into
`InvalidGrammar`). -/
def errMsg : ValidationError → String
  | .BestOf a b => s!"`best_of` must be > 0 and <= {a}. Given: {b}"
  | .BestOfDisabled => "`best_of` != 1 is not allowed for this endpoint"
  | .BestOfSampling => "you must use sampling when `best_of` is > 1"
  | .BestOfSeed => "`seed` must not be set when `best_of` > 1"
  | .BestOfStream => "`best_of` != 1 is not supported when streaming tokens"
  | .TopNTokens a b => s!"`top_n_tokens` must be >= 0 and <= {a}. Given: {b}"
  | .TopNTokensDisabled => "`top_n_tokens` != 0 is not allowed for this endpoint"
  | .PrefillDetailsStream => "`decoder_input_details` == true is not supported when streaming tokens"
  | .Temperature => "`temperature` must be strictly positive"
  | .RepetitionPenalty => "`repetition_penalty` must be strictly positive"
  | .FrequencyPenalty => "`frequency_penalty` must be >= -2.0 and <= 2.0"
  | .TopP => "`top_p` must be > 0.0 and < 1.0"
  | .TopK => "`top_k` must be strictly positive"
  | .Truncate a b => s!"`truncate` must be strictly positive and less than {a}. Given: {b}"
  | .TypicalP => "`typical_p` must be > 0.0 and < 1.0"
  | .UnsetMaxNewTokens => "one of `max_new_tokens` or `truncate` must be set if a fast tokenizer is not in use"
  | .NegativeMaxNewTokens => "`max_new_tokens` must be strictly positive"
  | .MaxNewTokens a b => s!"`max_new_tokens` must be <= {a}. Given: {b}"
  | .MaxTotalTokens a b c => s!"`inputs` tokens + `max_new_tokens` must be <= {a}. Given: {b} `inputs` tokens and {c} `max_new_tokens`"
  | .InputLength a b => s!"`inputs` must have less than {a} tokens. Given: {b}"
  | .EmptyInput => "`inputs` cannot be empty"
  | .StopSequence a b => s!"`stop` supports up to {a} stop sequences. Given: {b}"
  | .Tokenizer m => s!"tokenizer error {m}"
  | .Grammar => "grammar is not supported"
  | .InvalidGrammar m => s!"grammar is not valid: {m}"

/-- The tokenizer collaborator: `encode(text, add_special_tokens)` yields the
encoding (its list of token ids), `decode(ids, skip_special_tokens)` yields
text; both are fallible. -/
structure Tokenizer where
  encode : String → Bool → Except String (List Nat)
  decode : List Nat → Bool → Except String String

/-- The request parameter bag (`GenerateParameters`). -/
structure GenerateParameters where
  best_of : Option Nat
  temperature : Option ℚ
  repetition_penalty : Option ℚ
  frequency_penalty : Option ℚ
  top_k : Option Int
  top_p : Option ℚ
  typical_p : Option ℚ
  do_sample : Bool
  max_new_tokens : Option Nat
  stop : List String
  truncate : Option Nat
  seed : Option Nat
  watermark : Bool
  decoder_input_details : Bool
  top_n_tokens : Option Nat
  grammar : Option GrammarType

/-- `GenerateRequest`: the prompt plus its parameter bag. -/
structure GenerateRequest where
  inputs : String
  parameters : GenerateParameters

/-- The protobuf `NextTokenChooserParameters` message. -/
structure NextTokenChooserParameters where
  temperature : ℚ
  repetition_penalty : ℚ
  frequency_penalty : ℚ
  top_k : Nat
  top_p : ℚ
  typical_p : ℚ
  do_sample : Bool
  seed : Nat
  watermark : Bool
  grammar : String
  grammar_type : ProtoGrammarType
  states_to_token_maps : Option StatesToTokenMaps

/-- The protobuf `StoppingCriteriaParameters` message. -/
structure StoppingCriteriaParameters where
  max_new_tokens : Nat
  stop_sequences : List String
  ignore_eos_token : Bool

/-- The validated request emitted to the shards (`ValidGenerateRequest`). -/
structure ValidGenerateRequest where
  inputs : String
  input_length : Nat
  truncate : Nat
  decoder_input_details : Bool
  parameters : NextTokenChooserParameters
  stopping_parameters : StoppingCriteriaParameters
  top_n_tokens : Nat

/-- The `Validation` facade: configuration plus the external collaborators.
`tokenizer` is `none` when no fast tokenizer is configured (then both worker
pools are absent, as in the source's `Validation::new`).  `json_from_str`,
`jsonschema_compile` and `json_to_string` model `serde_json::from_str`,
draft 2020-12 `JSONSchema::compile` and `serde_json::to_string`;
`compile_grammar` models the reply of the grammar compilation worker pool. -/
structure Validation where
  max_best_of : Nat
  max_stop_sequences : Nat
  max_top_n_tokens : Nat
  max_input_length : Nat
  max_total_tokens : Nat
  disable_grammar_support : Bool
  tokenizer : Option Tokenizer
  json_from_str : String → Except String Json
  jsonschema_compile : Json → Except String Unit
  json_to_string : Json → String
  compile_grammar : String → Except ValidationError (String × StateTokenMaps)

/-- `Validation::validate_best_of` (validation.rs lines 453-463). -/
def validate_best_of (v : Validation) (best_of : Nat) : Except ValidationError Nat :=
  if v.max_best_of = 1 ∧ best_of ≠ 1 then .error .BestOfDisabled
  else if best_of > v.max_best_of then .error (.BestOf v.max_best_of best_of)
  else .ok best_of

/-- `prepare_input` (validation.rs lines 520-541): encode with special tokens,
then if `truncate < len(encoding)` truncate from the left (keep the last
`truncate` ids) and decode the kept ids with `skip_special_tokens = false`. -/
def prepare_input (inputs : String) (truncate : Option Nat) (tokenizer : Tokenizer) :
    Except ValidationError (List Nat × String) :=
  match tokenizer.encode inputs true with
  | .error err => .error (.Tokenizer err)
  | .ok encoding =>
    match truncate with
    | some t =>
      if t < encoding.length then
        let truncated := encoding.drop (encoding.length - t)
        match tokenizer.decode truncated false with
        | .error err => .error (.Tokenizer err)
        | .ok decoded => .ok (truncated, decoded)
      else .ok (encoding, inputs)
    | none => .ok (encoding, inputs)

/-- `Validation::validate_input` (validation.rs lines 166-229).  The result
triple is `(inputs, input_length, max_new_tokens)`; the outer `Option` is
`none` exactly when the unchecked subtraction
`self.max_total_tokens - self.max_input_length` in the `MaxNewTokens` error
path would underflow (a panic in the source).  The no-tokenizer budget
check `(input_length as u32 + max_new_tokens) > self.max_total_tokens as u32`
is a u32 addition, which wraps modulo `2^32` in release builds (a debug
build panics on overflow); the wrapping release semantics is modelled by
the outer `u32cast` around the sum. -/
def validate_input (v : Validation) (inputs : String) (truncate : Option Nat)
    (max_new_tokens : Option Nat) : Option (Except ValidationError (String × Nat × Nat)) :=
  match v.tokenizer with
  | some tokenizer =>
    match prepare_input inputs truncate tokenizer with
    | .error e => some (.error e)
    | .ok (encoding, inputs) =>
      let input_length := encoding.length
      let max_new_tokens : Nat :=
        match max_new_tokens with
        | some m => m
        | none => u32cast (v.max_total_tokens - input_length)
      let total_tokens := input_length + max_new_tokens
      if total_tokens > v.max_total_tokens then
        some (.error (.MaxTotalTokens v.max_total_tokens input_length max_new_tokens))
      else if input_length > v.max_input_length then
        some (.error (.InputLength v.max_input_length input_length))
      else
        some (.ok (inputs, input_length, max_new_tokens))
  | none =>
    match
      (match max_new_tokens with
       | some m => Except.ok m
       | none =>
         match truncate with
         | some t => Except.ok (u32cast (v.max_total_tokens - t))
         | none => Except.error ValidationError.UnsetMaxNewTokens) with
    | .error e => some (.error e)
    | .ok max_new_tokens =>
      let input_length := truncate.getD v.max_input_length
      if u32cast (u32cast input_length + max_new_tokens) > u32cast v.max_total_tokens then
        match checkedSub v.max_total_tokens v.max_input_length with
        | some d => some (.error (.MaxNewTokens d max_new_tokens))
        | none => none
      else
        some (.ok (inputs, input_length, max_new_tokens))

/-- The derived `sampling` flag (validation.rs lines 259-263). -/
def samplingOf (p : GenerateParameters) : Bool :=
  p.do_sample || p.temperature.isSome || p.top_k.isSome || p.top_p.isSome || p.typical_p.isSome

/-- The `top_p` closure (validation.rs lines 286-293): a supplied value must
be strictly between 0.0 and 1.0; an absent one resolves to 1.0. -/
def checked_top_p (p : GenerateParameters) : Except ValidationError ℚ :=
  match p.top_p with
  | some value => if value ≤ 0 ∨ 1 ≤ value then .error .TopP else .ok value
  | none => .ok 1

/-- The `typical_p` closure (validation.rs lines 295-302). -/
def checked_typical_p (p : GenerateParameters) : Except ValidationError ℚ :=
  match p.typical_p with
  | some value => if value ≤ 0 ∨ 1 ≤ value then .error .TypicalP else .ok value
  | none => .ok 1

/-- The `top_k` closure (validation.rs lines 304-311): a supplied value must
be strictly positive and is cast `as u32`; absent resolves to 0. -/
def checked_top_k (p : GenerateParameters) : Except ValidationError Nat :=
  match p.top_k with
  | some value => if value ≤ 0 then .error .TopK else .ok (u32cast value.toNat)
  | none => .ok 0

/-- The seed resolution (validation.rs lines 324-333): absent seeds draw the
fresh random value; a supplied seed is rejected when `best_of > 1`. -/
def checked_seed (p : GenerateParameters) (fresh_seed : Nat) : Except ValidationError Nat :=
  match p.seed with
  | none => .ok fresh_seed
  | some s => if p.best_of.getD 1 > 1 then .error .BestOfSeed else .ok s

/-- The `top_n_tokens` closure (validation.rs lines 335-342). -/
def checked_top_n_tokens (v : Validation) (p : GenerateParameters) :
    Except ValidationError Nat :=
  match p.top_n_tokens with
  | some value =>
    if value > v.max_top_n_tokens then .error (.TopNTokens v.max_top_n_tokens value)
    else .ok value
  | none => .ok 0

/-- The `truncate` bounds check (validation.rs lines 349-357). -/
def checked_truncate (v : Validation) (truncate : Option Nat) :
    Except ValidationError (Option Nat) :=
  match truncate with
  | some value =>
    if value = 0 ∨ value > v.max_input_length then .error (.Truncate v.max_input_length value)
    else .ok (some value)
  | none => .ok none

/-- The parameters resolved by the synchronous prefix of `validate`. -/
structure ResolvedParams where
  best_of : Nat
  temperature : ℚ
  repetition_penalty : ℚ
  frequency_penalty : ℚ
  top_k : Nat
  top_p : ℚ
  typical_p : ℚ
  seed : Nat
  top_n_tokens : Nat
  sampling : Bool

/-- The synchronous parameter-checking prefix of `Validation::validate`
(validation.rs lines 257-342), in the source's order: best-of/sampling
coupling, temperature, repetition penalty, frequency penalty, top_p,
typical_p, top_k, max_new_tokens ≠ 0, stop-sequence count, seed, and
top_n_tokens. -/
def validate_parameters (v : Validation) (p : GenerateParameters) (fresh_seed : Nat) :
    Except ValidationError ResolvedParams :=
  if p.best_of.getD 1 > 1 ∧ samplingOf p = false then .error .BestOfSampling else
  if p.temperature.getD 1 ≤ 0 then .error .Temperature else
  if p.repetition_penalty.getD 1 ≤ 0 then .error .RepetitionPenalty else
  if p.frequency_penalty.getD 0 < -2 ∨ 2 < p.frequency_penalty.getD 0 then
    .error .FrequencyPenalty else
  match checked_top_p p with
  | .error e => .error e
  | .ok top_p =>
    match checked_typical_p p with
    | .error e => .error e
    | .ok typical_p =>
      match checked_top_k p with
      | .error e => .error e
      | .ok top_k =>
        if p.max_new_tokens = some 0 then .error .NegativeMaxNewTokens else
        if p.stop.length > v.max_stop_sequences then
          .error (.StopSequence v.max_stop_sequences p.stop.length) else
        match checked_seed p fresh_seed with
        | .error e => .error e
        | .ok seed =>
          match checked_top_n_tokens v p with
          | .error e => .error e
          | .ok top_n_tokens =>
            .ok { best_of := p.best_of.getD 1, temperature := p.temperature.getD 1,
                  repetition_penalty := p.repetition_penalty.getD 1,
                  frequency_penalty := p.frequency_penalty.getD 0,
                  top_k, top_p, typical_p, seed, top_n_tokens,
                  sampling := samplingOf p }

/-- The second compilation stage for a normalized JSON-Schema grammar
(validation.rs lines 388-410): draft 2020-12 schema compilation, then the
grammar pool, then substitution of the empty placeholder
`StatesToTokenMaps` and the `Regex` proto kind. -/
def compile_json_schema_grammar (v : Validation) (json : Json) :
    Except ValidationError (String × ProtoGrammarType × Option StatesToTokenMaps) :=
  match v.jsonschema_compile json with
  | .error e => .error (.InvalidGrammar e)
  | .ok _ =>
    match v.compile_grammar (v.json_to_string json) with
    | .error e => .error (.InvalidGrammar (errMsg e))
    | .ok (regex_compiled_grammar, _stm) =>
      .ok (regex_compiled_grammar, .regex,
           some { start_states := [], tokens := [], end_states := [] })

/-- The grammar handling block of `Validation::validate` (validation.rs
lines 371-416): support gate, payload normalization (string re-parsed,
object accepted, other shapes rejected), schema validation and compilation
for JSON grammars; raw regexes pass through with no FSM map. -/
def handle_grammar (v : Validation) (grammar : Option GrammarType) :
    Except ValidationError (String × ProtoGrammarType × Option StatesToTokenMaps) :=
  match grammar with
  | some grammar =>
    if v.disable_grammar_support then .error .Grammar
    else
      match grammar with
      | .json json =>
        match
          (match json with
           | .str s =>
             match v.json_from_str s with
             | .error e => Except.error (ValidationError.InvalidGrammar e)
             | .ok parsed => Except.ok parsed
           | .obj kvs => Except.ok (Json.obj kvs)
           | _ => Except.error ValidationError.Grammar) with
        | .error e => .error e
        | .ok json => compile_json_schema_grammar v json
      | .regex regex => .ok (regex, .regex, none)
  | none => .ok ("", .none, none)

/-- `Validation::validate` (validation.rs lines 233-449) for one request.
`fresh_seed` is the value `thread_rng().gen()` would draw; the outer
`Option` propagates the `validate_input` panic model. -/
def validate (v : Validation) (req : GenerateRequest) (fresh_seed : Nat) :
    Option (Except ValidationError ValidGenerateRequest) :=
  match validate_parameters v req.parameters fresh_seed with
  | .error e => some (.error e)
  | .ok r =>
    if req.inputs.isEmpty then some (.error .EmptyInput) else
    match checked_truncate v req.parameters.truncate with
    | .error e => some (.error e)
    | .ok truncate =>
      match validate_input v req.inputs truncate req.parameters.max_new_tokens with
      | none => none
      | some (.error e) => some (.error e)
      | some (.ok (inputs, input_length, max_new_tokens)) =>
        match handle_grammar v req.parameters.grammar with
        | .error e => some (.error e)
        | .ok (grammar, grammar_type, states_to_token_maps) =>
          some (.ok {
            inputs,
            input_length := u32cast input_length,
            truncate := u32cast (truncate.getD v.max_input_length),
            decoder_input_details := req.parameters.decoder_input_details,
            parameters := {
              temperature := r.temperature,
              repetition_penalty := r.repetition_penalty,
              frequency_penalty := r.frequency_penalty,
              top_k := r.top_k,
              top_p := r.top_p,
              typical_p := r.typical_p,
              do_sample := req.parameters.do_sample,
              seed := r.seed,
              watermark := req.parameters.watermark,
              grammar, grammar_type, states_to_token_maps },
            stopping_parameters := {
              max_new_tokens,
              stop_sequences := req.parameters.stop,
              ignore_eos_token := false },
            top_n_tokens := r.top_n_tokens })

/-! ### Concrete fixtures

`defaultParameters` mirrors the test helper `default_parameters()`; `cfgA`
is the boundary configuration used throughout the source's tests
(`max_best_of=2, max_stop=3, max_top_n=4, max_input=5, max_total=6`) with no
tokenizer and grammar support disabled. -/

/-- The all-defaults parameter bag (`default_parameters()` in the tests). -/
def defaultParameters : GenerateParameters := {
  best_of := none, temperature := none, repetition_penalty := none,
  frequency_penalty := none, top_k := none, top_p := none, typical_p := none,
  do_sample := false, max_new_tokens := none, stop := [], truncate := none,
  seed := none, watermark := false, decoder_input_details := false,
  top_n_tokens := none, grammar := none }

/-- The tests' boundary configuration, with no tokenizer. -/
def cfgA : Validation := {
  max_best_of := 2, max_stop_sequences := 3, max_top_n_tokens := 4,
  max_input_length := 5, max_total_tokens := 6, disable_grammar_support := true,
  tokenizer := none,
  json_from_str := fun _ => .error "parse error",
  jsonschema_compile := fun _ => .ok (),
  json_to_string := fun _ => "schema",
  compile_grammar := fun _ => .error .Grammar }

/-- A tokenizer that encodes every prompt to the single token id 42 (as the
tests' tokenizer does for "Hello"). -/
def tok1 : Tokenizer := {
  encode := fun _ _ => .ok [42],
  decode := fun _ _ => .ok "decoded" }

/-- The boundary configuration with `tok1` installed. -/
def cfgTok : Validation := { cfgA with tokenizer := some tok1 }

/-- A character-level tokenizer: token ids are the code points, decoding maps
them back; truncation round-trips are observable through it. -/
def tok2 : Tokenizer := {
  encode := fun s _ => .ok (s.data.map Char.toNat),
  decode := fun ids _ => .ok (String.mk (ids.map Char.ofNat)) }

/-- A relaxed-budget configuration (`max_total=106`) with `tok2` installed. -/
def cfgTok2 : Validation := { cfgA with tokenizer := some tok2, max_total_tokens := 106 }

/-- The boundary configuration with grammar support enabled and trivially
succeeding grammar collaborators. -/
def cfgG : Validation := { cfgA with
  disable_grammar_support := false,
  json_from_str := fun _ => .ok (Json.obj []),
  compile_grammar := fun _ => .ok ("rx", []) }

/-- Grammar support enabled but with a failing draft 2020-12 compiler. -/
def cfgBadSchema : Validation := { cfgG with jsonschema_compile := fun _ => .error "bad schema" }

/-- Decides whether a (non-panicking) validation outcome is an acceptance. -/
def isAccepted : Option (Except ValidationError ValidGenerateRequest) → Bool
  | some (.ok _) => true
  | _ => false

/-- A request whose `best_of` is far above `cfgA.max_best_of`, with sampling
enabled so the coupling check passes. -/
def reqBestOf5 : GenerateRequest := {
  inputs := "Hello",
  parameters := { defaultParameters with
    best_of := some 5, do_sample := true, max_new_tokens := some 1 } }

/-- A parameter bag with `best_of = n` and sampling enabled, everything else
defaulted. -/
def samplingOnlyParams (n : Nat) : GenerateParameters :=
  { defaultParameters with best_of := some n, do_sample := true }

/-- The parameters `validate_parameters` resolves for `samplingOnlyParams n`
with fresh seed `fresh`. -/
def resolvedSampling (n fresh : Nat) : ResolvedParams := {
  best_of := n, temperature := 1, repetition_penalty := 1, frequency_penalty := 0,
  top_k := 0, top_p := 1, typical_p := 1, seed := fresh, top_n_tokens := 0,
  sampling := true }

/-- Empty prompt together with an out-of-bounds temperature. -/
def reqEmptyBadTemp : GenerateRequest := {
  inputs := "",
  parameters := { defaultParameters with temperature := some 0 } }

/-- Empty prompt with all parameters at their defaults. -/
def reqEmptyOk : GenerateRequest := { inputs := "", parameters := defaultParameters }

/-- The parameters `validate_parameters` resolves for `defaultParameters`
with fresh seed 0. -/
def emptyOkResolved : ResolvedParams := {
  best_of := 1, temperature := 1, repetition_penalty := 1, frequency_penalty := 0,
  top_k := 0, top_p := 1, typical_p := 1, seed := 0, top_n_tokens := 0,
  sampling := false }

/-- `best_of = 2` with a user seed and an out-of-bounds temperature. -/
def reqSeedBadTemp : GenerateRequest := {
  inputs := "Hello",
  parameters := { defaultParameters with
    best_of := some 2, do_sample := true, seed := some 42, temperature := some 0 } }

/-- A request `cfgTok` accepts: one prompt token plus five new tokens is
exactly the total budget. -/
def reqTokOk : GenerateRequest := {
  inputs := "Hello",
  parameters := { defaultParameters with max_new_tokens := some 5 } }

/-- The record `validate cfgTok reqTokOk 0` emits. -/
def outTok : ValidGenerateRequest := {
  inputs := "Hello", input_length := 1, truncate := 5, decoder_input_details := false,
  parameters := {
    temperature := 1, repetition_penalty := 1, frequency_penalty := 0, top_k := 0,
    top_p := 1, typical_p := 1, do_sample := false, seed := 0, watermark := false,
    grammar := "", grammar_type := .none, states_to_token_maps := none },
  stopping_parameters := { max_new_tokens := 5, stop_sequences := [], ignore_eos_token := false },
  top_n_tokens := 0 }

/-- `best_of = 2` without sampling (test S3). -/
def reqBestOfNoSampling : GenerateRequest := {
  inputs := "Hello",
  parameters := { defaultParameters with best_of := some 2 } }

/-- `best_of = 2` with sampling and a user-provided seed. -/
def reqBestOfSeed : GenerateRequest := {
  inputs := "Hello",
  parameters := { defaultParameters with
    best_of := some 2, do_sample := true, seed := some 42 } }

/-- `best_of = 2` with sampling, no seed, and a feasible token budget. -/
def reqBo2Ok : GenerateRequest := {
  inputs := "Hello",
  parameters := { defaultParameters with
    best_of := some 2, do_sample := true, max_new_tokens := some 1 } }

/-- The record `validate cfgA reqBo2Ok 0` emits. -/
def outBo2 : ValidGenerateRequest := {
  inputs := "Hello", input_length := 5, truncate := 5, decoder_input_details := false,
  parameters := {
    temperature := 1, repetition_penalty := 1, frequency_penalty := 0, top_k := 0,
    top_p := 1, typical_p := 1, do_sample := true, seed := 0, watermark := false,
    grammar := "", grammar_type := .none, states_to_token_maps := none },
  stopping_parameters := { max_new_tokens := 1, stop_sequences := [], ignore_eos_token := false },
  top_n_tokens := 0 }

/-- A request supplying `top_p = 1.0`. -/
def reqTopP1 : GenerateRequest := {
  inputs := "Hello",
  parameters := { defaultParameters with top_p := some 1, max_new_tokens := some 5 } }

/-- A request carrying a JSON-Schema grammar given as an object. -/
def reqGram : GenerateRequest := {
  inputs := "Hello",
  parameters := { defaultParameters with
    grammar := some (.json (.obj [])), max_new_tokens := some 1 } }

/-- The record `validate cfgG reqGram 0` emits. -/
def outGram : ValidGenerateRequest := {
  inputs := "Hello", input_length := 5, truncate := 5, decoder_input_details := false,
  parameters := {
    temperature := 1, repetition_penalty := 1, frequency_penalty := 0, top_k := 0,
    top_p := 1, typical_p := 1, do_sample := false, seed := 0, watermark := false,
    grammar := "rx", grammar_type := .regex,
    states_to_token_maps := some { start_states := [], tokens := [], end_states := [] } },
  stopping_parameters := { max_new_tokens := 1, stop_sequences := [], ignore_eos_token := false },
  top_n_tokens := 0 }

/-! ### Helper lemmas -/

theorem u32cast_le (n : Nat) : u32cast n ≤ n := Nat.mod_le _ _

theorem u32cast_eq_of_lt {n : Nat} (h : n < 2 ^ 32) : u32cast n = n := Nat.mod_eq_of_lt h

/-- Inversion for the synchronous parameter prefix: a successful resolution
pins each resolved field to its checking function. -/
theorem validate_parameters_ok_inv {v : Validation} {p : GenerateParameters} {fresh : Nat}
    {r : ResolvedParams} (h : validate_parameters v p fresh = .ok r) :
    ¬(p.best_of.getD 1 > 1 ∧ samplingOf p = false) ∧
    checked_top_p p = .ok r.top_p ∧
    checked_typical_p p = .ok r.typical_p ∧
    checked_seed p fresh = .ok r.seed ∧
    checked_top_n_tokens v p = .ok r.top_n_tokens ∧
    r.sampling = samplingOf p ∧ r.best_of = p.best_of.getD 1 := by
  unfold validate_parameters at h
  repeat' split at h
  all_goals simp_all
  all_goals (subst h; simp)

/-- Inversion for `validate`: an accepted request passed every stage, and the
emitted record's fields come from the respective stages. -/
theorem validate_ok_inv {v : Validation} {req : GenerateRequest} {fresh : Nat}
    {out : ValidGenerateRequest} (h : validate v req fresh = some (.ok out)) :
    ∃ r trunc inputs input_length max_new_tokens grammar grammar_type stm,
      validate_parameters v req.parameters fresh = .ok r ∧
      req.inputs.isEmpty = false ∧
      checked_truncate v req.parameters.truncate = .ok trunc ∧
      validate_input v req.inputs trunc req.parameters.max_new_tokens
        = some (.ok (inputs, input_length, max_new_tokens)) ∧
      handle_grammar v req.parameters.grammar = .ok (grammar, grammar_type, stm) ∧
      out.parameters.seed = r.seed ∧ out.parameters.top_p = r.top_p ∧
      out.parameters.typical_p = r.typical_p ∧
      out.parameters.grammar_type = grammar_type ∧
      out.input_length = u32cast input_length ∧
      out.stopping_parameters.max_new_tokens = max_new_tokens ∧
      out.top_n_tokens = r.top_n_tokens := by
  unfold validate at h
  cases hp : validate_parameters v req.parameters fresh with
  | error e => rw [hp] at h; simp at h
  | ok r =>
    rw [hp] at h
    by_cases he : req.inputs.isEmpty
    · simp [he] at h
    · simp only [he, if_false, Bool.false_eq_true, if_neg] at h
      cases ht : checked_truncate v req.parameters.truncate with
      | error e => rw [ht] at h; simp at h
      | ok trunc =>
        rw [ht] at h
        dsimp only at h
        cases hv : validate_input v req.inputs trunc req.parameters.max_new_tokens with
        | none => rw [hv] at h; simp at h
        | some res =>
          rw [hv] at h
          cases res with
          | error e => simp at h
          | ok triple =>
            obtain ⟨inputs0, len0, mnt0⟩ := triple
            dsimp only at h
            cases hg : handle_grammar v req.parameters.grammar with
            | error e => rw [hg] at h; simp at h
            | ok g3 =>
              obtain ⟨g, gt, stm⟩ := g3
              rw [hg] at h
              dsimp only at h
              simp only [Option.some.injEq, Except.ok.injEq] at h
              subst h
              exact ⟨r, trunc, inputs0, len0, mnt0, g, gt, stm, rfl,
                (by simpa using he), rfl, hv, rfl, rfl, rfl, rfl, rfl, rfl, rfl, rfl⟩

/-- A resolved seed under `best_of > 1` can only come from the fresh draw. -/
theorem checked_seed_ok_inv {p : GenerateParameters} {fresh s : Nat}
    (h : checked_seed p fresh = .ok s) (hbo : 1 < p.best_of.getD 1) :
    p.seed = none ∧ s = fresh := by
  unfold checked_seed at h
  cases hs : p.seed with
  | none => rw [hs] at h; simp at h; exact ⟨rfl, h.symm⟩
  | some s0 => rw [hs] at h; simp [hbo] at h

/-- With a tokenizer, an accepted `validate_input` outcome satisfies both
token-budget bounds. -/
theorem validate_input_ok_bounds {v : Validation} {tok : Tokenizer}
    {inputs s : String} {truncate mnt : Option Nat} {L M : Nat}
    (htok : v.tokenizer = some tok)
    (h : validate_input v inputs truncate mnt = some (.ok (s, L, M))) :
    L + M ≤ v.max_total_tokens ∧ L ≤ v.max_input_length := by
  unfold validate_input at h
  rw [htok] at h
  dsimp only at h
  cases hprep : prepare_input inputs truncate tok with
  | error e => rw [hprep] at h; simp at h
  | ok pr =>
    obtain ⟨encoding, inputs2⟩ := pr
    rw [hprep] at h
    dsimp only at h
    split at h
    · simp at h
    · split at h
      · simp at h
      · simp only [Option.some.injEq, Except.ok.injEq, Prod.mk.injEq] at h
        obtain ⟨-, hL, hM⟩ := h
        subst hL; subst hM
        omega

/-- A successful JSON-Schema compilation always yields the `Regex` proto
kind. -/
theorem compile_json_schema_grammar_ok_kind {v : Validation} {j : Json}
    {res : String × ProtoGrammarType × Option StatesToTokenMaps}
    (h : compile_json_schema_grammar v j = .ok res) : res.2.1 = .regex := by
  unfold compile_json_schema_grammar at h
  split at h
  · simp at h
  · split at h
    · simp at h
    · simp only [Except.ok.injEq] at h
      subst h
      rfl

/-- A JSON-Schema grammar accepted by the grammar handler carries the
`Regex` proto kind. -/
theorem handle_grammar_json_ok_kind {v : Validation} {j : Json}
    {res : String × ProtoGrammarType × Option StatesToTokenMaps}
    (h : handle_grammar v (some (.json j)) = .ok res) : res.2.1 = .regex := by
  unfold handle_grammar at h
  dsimp only at h
  split at h
  · simp at h
  · split at h
    · simp at h
    · exact compile_json_schema_grammar_ok_kind h

/-! ### Claims -/

/-- C1, counterexample: `validate` does not enforce the best-of bounds row.
Under the boundary configuration (`max_best_of = 2`) a request with
`best_of = 5` and sampling enabled is accepted by `validate`, so a best_of
outside `1..=max_best_of` is not rejected there. -/
theorem C1_counterexample :
    isAccepted (validate cfgA reqBestOf5 0) = true ∧
    reqBestOf5.parameters.best_of = some 5 ∧ cfgA.max_best_of = 2 :=
  ⟨rfl, rfl, rfl⟩

/-- C1, amended: the async `validate` does not itself check `best_of`
against `max_best_of` — for every configuration and every `best_of` value, a
request with sampling enabled and otherwise default parameters passes the
whole parameter-validation prefix — while the best-of row (reject outside the
range with `BestOfDisabled` when `max_best_of == 1` and `best_of != 1`, and
`BestOf` when `best_of > max_best_of`) is enforced only by the separate pure
operation `validate_best_of`. -/
theorem C1_best_of_row (v : Validation) (n fresh : Nat) :
    (∃ r, validate_parameters v (samplingOnlyParams n) fresh = .ok r) ∧
    validate_best_of v n =
      (if v.max_best_of = 1 ∧ n ≠ 1 then .error .BestOfDisabled
       else if n > v.max_best_of then .error (.BestOf v.max_best_of n)
       else .ok n) := by
  constructor
  · refine ⟨resolvedSampling n fresh, ?_⟩
    unfold validate_parameters samplingOnlyParams defaultParameters resolvedSampling
    simp [samplingOf, checked_top_p, checked_typical_p, checked_top_k,
      checked_seed, checked_top_n_tokens]
    norm_num
  · rfl

/-- C2, counterexample: an empty prompt does not always yield `EmptyInput`.
With an out-of-bounds temperature the parameter error preempts the empty
prompt check, because `validate` tests `inputs.is_empty()` only after the
whole parameter prefix. -/
theorem C2_counterexample :
    validate cfgA reqEmptyBadTemp 0 = some (.error .Temperature) ∧
    reqEmptyBadTemp.inputs = "" :=
  ⟨rfl, rfl⟩

/-- C2, amended: for every request whose prompt is empty and whose
parameters pass the parameter-validation prefix, `validate` returns
`EmptyInput` (parameter errors preempt the empty-prompt check). -/
theorem C2_empty_prompt (v : Validation) (req : GenerateRequest) (fresh : Nat)
    (r : ResolvedParams) (hempty : req.inputs = "")
    (hp : validate_parameters v req.parameters fresh = .ok r) :
    validate v req fresh = some (.error .EmptyInput) := by
  unfold validate
  rw [hp, hempty]
  rfl

/-- C2, witness: the all-defaults empty-prompt request is rejected with
`EmptyInput`. -/
theorem C2_witness : validate cfgA reqEmptyOk 0 = some (.error .EmptyInput) :=
  C2_empty_prompt cfgA reqEmptyOk 0 emptyOkResolved rfl rfl

/-- C3: `validate_best_of` evaluated at the failing input `best_of = 0`
under `max_best_of = 2` returns `Ok(0)`, although the code's own `BestOf`
error message documents that `best_of` must be strictly positive. -/
theorem C3_zero_accepted :
    validate_best_of cfgA 0 = .ok 0 ∧ cfgA.max_best_of = 2 ∧
    errMsg (.BestOf cfgA.max_best_of 0) = "`best_of` must be > 0 and <= 2. Given: 0" :=
  ⟨rfl, rfl, rfl⟩

/-- C4: budget law with a tokenizer configured.  Every request `validate`
accepts satisfies `input_length + max_new_tokens ≤ max_total_tokens` and
`input_length ≤ max_input_length` in the emitted record; and at the
`validate_input` level, with resolved `max_new_tokens = M`, a violation of
the first bound is rejected as
`MaxTotalTokens(max_total_tokens, input_length, M)` and an ensuing violation
of the second as `InputLength(max_input_length, input_length)`. -/
theorem C4_budget_law (v : Validation) (req : GenerateRequest) (fresh : Nat)
    (tok : Tokenizer) (htok : v.tokenizer = some tok) :
    (∀ out, validate v req fresh = some (.ok out) →
        out.input_length + out.stopping_parameters.max_new_tokens ≤ v.max_total_tokens ∧
        out.input_length ≤ v.max_input_length) ∧
    (∀ (inputs s : String) (truncate mnt : Option Nat) (M : Nat) (encoding : List Nat),
        prepare_input inputs truncate tok = .ok (encoding, s) →
        M = (match mnt with
             | some m => m
             | none => u32cast (v.max_total_tokens - encoding.length)) →
        validate_input v inputs truncate mnt =
          (if encoding.length + M > v.max_total_tokens then
             some (.error (.MaxTotalTokens v.max_total_tokens encoding.length M))
           else if encoding.length > v.max_input_length then
             some (.error (.InputLength v.max_input_length encoding.length))
           else some (.ok (s, encoding.length, M)))) := by
  constructor
  · intro out hok
    obtain ⟨r, trunc, inputs0, L, M, g, gt, stm, hp, he, ht, hv, hg,
      hsd, htp, htyp, hgt, hlen, hmnt, htn⟩ := validate_ok_inv hok
    obtain ⟨hb1, hb2⟩ := validate_input_ok_bounds htok hv
    rw [hlen, hmnt]
    exact ⟨le_trans (Nat.add_le_add_right (u32cast_le L) M) hb1,
           le_trans (u32cast_le L) hb2⟩
  · intro inputs s truncate mnt M encoding hprep hM
    cases mnt with
    | some m =>
      dsimp only at hM
      subst hM
      unfold validate_input
      rw [htok]
      dsimp only
      rw [hprep]
    | none =>
      dsimp only at hM
      subst hM
      unfold validate_input
      rw [htok]
      dsimp only
      rw [hprep]

/-- C4, witness: under `cfgTok` the accepted request `reqTokOk` satisfies
both bounds, and the S2 scenario ("Hello" is one token, ten new tokens,
total budget six) is rejected with `MaxTotalTokens(6, 1, 10)`. -/
theorem C4_witness :
    (outTok.input_length + outTok.stopping_parameters.max_new_tokens ≤ cfgTok.max_total_tokens ∧
     outTok.input_length ≤ cfgTok.max_input_length) ∧
    validate_input cfgTok "Hello" none (some 10) = some (.error (.MaxTotalTokens 6 1 10)) := by
  constructor
  · exact (C4_budget_law cfgTok reqTokOk 0 tok1 rfl).1 outTok rfl
  · have h := (C4_budget_law cfgTok reqTokOk 0 tok1 rfl).2
      "Hello" "Hello" none (some 10) 10 [42] rfl rfl
    rw [h]
    rfl

/-- C5, counterexample: with `best_of = 2` and a user seed, an out-of-bounds
temperature makes `validate` fail with `Temperature`, not `BestOfSeed`, so
"if a seed is supplied validate fails with BestOfSeed" is false as stated. -/
theorem C5_counterexample :
    validate cfgA reqSeedBadTemp 0 = some (.error .Temperature) ∧
    reqSeedBadTemp.parameters.best_of = some 2 ∧
    reqSeedBadTemp.parameters.seed = some 42 :=
  ⟨rfl, rfl, rfl⟩

/-- C5, amended: for every request with `best_of > 1`: without sampling,
`validate` fails with `BestOfSampling`; with a user seed it never succeeds,
and fails with `BestOfSeed` precisely when every parameter check before the
seed check passes; and when it succeeds, sampling was enabled, no seed was
supplied, and the emitted seed is the freshly drawn value. -/
theorem C5_best_of_coupling (v : Validation) (req : GenerateRequest) (fresh : Nat)
    (hbo : 1 < req.parameters.best_of.getD 1) :
    (samplingOf req.parameters = false →
      validate v req fresh = some (.error .BestOfSampling)) ∧
    (req.parameters.seed.isSome = true →
      ∀ out, validate v req fresh ≠ some (.ok out)) ∧
    (∀ s, req.parameters.seed = some s → samplingOf req.parameters = true →
      ¬ req.parameters.temperature.getD 1 ≤ 0 →
      ¬ req.parameters.repetition_penalty.getD 1 ≤ 0 →
      ¬ (req.parameters.frequency_penalty.getD 0 < -2 ∨
         2 < req.parameters.frequency_penalty.getD 0) →
      (∃ q, checked_top_p req.parameters = .ok q) →
      (∃ q, checked_typical_p req.parameters = .ok q) →
      (∃ k, checked_top_k req.parameters = .ok k) →
      req.parameters.max_new_tokens ≠ some 0 →
      ¬ req.parameters.stop.length > v.max_stop_sequences →
      validate v req fresh = some (.error .BestOfSeed)) ∧
    (∀ out, validate v req fresh = some (.ok out) →
      samplingOf req.parameters = true ∧ req.parameters.seed = none ∧
      out.parameters.seed = fresh) := by
  refine ⟨?_, ?_, ?_, ?_⟩
  · intro hs
    unfold validate validate_parameters
    rw [if_pos ⟨hbo, hs⟩]
  · intro hseed out hok
    obtain ⟨r, _, _, _, _, _, _, _, hp, _, _, _, _, _, _, _, _, _, _, _⟩ :=
      validate_ok_inv hok
    obtain ⟨_, _, _, hcs, _, _, _⟩ := validate_parameters_ok_inv hp
    obtain ⟨hnone, -⟩ := checked_seed_ok_inv hcs hbo
    rw [hnone] at hseed
    simp at hseed
  · rintro s hs hsamp hT hR hF ⟨q1, hq1⟩ ⟨q2, hq2⟩ ⟨k0, hk0⟩ hm hstop
    have hcs : checked_seed req.parameters fresh = .error .BestOfSeed := by
      unfold checked_seed
      rw [hs]
      dsimp only
      rw [if_pos hbo]
    have hvp : validate_parameters v req.parameters fresh = .error .BestOfSeed := by
      unfold validate_parameters
      rw [if_neg (by simp [hsamp] :
            ¬(req.parameters.best_of.getD 1 > 1 ∧ samplingOf req.parameters = false)),
          if_neg hT, if_neg hR, if_neg hF, hq1, hq2, hk0]
      dsimp only
      rw [if_neg hm, if_neg hstop, hcs]
    unfold validate
    rw [hvp]
  · intro out hok
    obtain ⟨r, _, _, _, _, _, _, _, hp, _, _, _, _, hsd, _, _, _, _, _, _⟩ :=
      validate_ok_inv hok
    obtain ⟨hns, _, _, hcs, _, _, _⟩ := validate_parameters_ok_inv hp
    obtain ⟨hnone, hfresh⟩ := checked_seed_ok_inv hcs hbo
    refine ⟨?_, hnone, ?_⟩
    · rcases Bool.eq_false_or_eq_true (samplingOf req.parameters) with h | h
      · exact h
      · exact absurd ⟨hbo, h⟩ hns
    · rw [hsd, hfresh]

/-- C5, witness: the three coupling behaviours at concrete requests under
the boundary configuration. -/
theorem C5_witness :
    validate cfgA reqBestOfNoSampling 0 = some (.error .BestOfSampling) ∧
    validate cfgA reqBestOfSeed 0 = some (.error .BestOfSeed) ∧
    validate cfgA reqBestOfSeed 0 ≠ some (.ok outBo2) ∧
    (samplingOf reqBo2Ok.parameters = true ∧ reqBo2Ok.parameters.seed = none ∧
      outBo2.parameters.seed = 0) := by
  refine ⟨?_, ?_, ?_, ?_⟩
  · exact (C5_best_of_coupling cfgA reqBestOfNoSampling 0 (by decide)).1 rfl
  · exact (C5_best_of_coupling cfgA reqBestOfSeed 0 (by decide)).2.2.1 42 rfl rfl
      (by decide) (by decide) (by decide) ⟨1, rfl⟩ ⟨1, rfl⟩ ⟨0, rfl⟩
      (by decide) (by decide)
  · exact (C5_best_of_coupling cfgA reqBestOfSeed 0 (by decide)).2.1 rfl outBo2
  · exact (C5_best_of_coupling cfgA reqBo2Ok 0 (by decide)).2.2.2 outBo2 rfl

/-- C6, counterexample: the over-budget rejection does not hold for every
representable `max_new_tokens`.  The budget comparison is a u32 addition:
with `max_new_tokens = 4294967293` (a valid u32) under the boundary
configuration, `5 + 4294967293` wraps to `2` modulo `2^32`, `2 > 6` is
false, and the request is accepted instead of rejected with `MaxNewTokens`
(a debug build panics at the addition; neither build returns the error). -/
theorem C6_counterexample :
    validate_input cfgA "Hello" none (some 4294967293) =
      some (.ok ("Hello", 5, 4294967293)) ∧
    (4294967293 : Nat) < 2 ^ 32 ∧
    cfgA.max_input_length + 4294967293 > cfgA.max_total_tokens :=
  ⟨rfl, by decide, by decide⟩

/-- C6, amended: `validate_input` without a tokenizer.  With neither
`max_new_tokens` nor `truncate` it fails with `UnsetMaxNewTokens`; otherwise
`input_length` is `truncate` when supplied and `max_input_length` when not,
`max_new_tokens` defaults to `max_total_tokens - truncate` (saturating), and
— provided `input_length + max_new_tokens < 2^32`, so the u32 addition in
the budget comparison does not wrap — an over-budget request is rejected
with `MaxNewTokens(max_total_tokens - max_input_length, max_new_tokens)`.
The other hypotheses are the sane-configuration assumptions
(`max_input_length ≤ max_total_tokens < 2^32`) and that a supplied
`truncate` is within `max_input_length`, under which the source's `as u32`
casts are lossless. -/
theorem C6_no_tokenizer (v : Validation) (inputs : String) (truncate mnt : Option Nat)
    (hnotok : v.tokenizer = none)
    (hsane : v.max_input_length ≤ v.max_total_tokens)
    (h32 : v.max_total_tokens < 2 ^ 32)
    (htr : truncate.getD 0 ≤ v.max_input_length)
    (hadd : truncate.getD v.max_input_length + mnt.getD 0 < 2 ^ 32) :
    validate_input v inputs truncate mnt =
      match mnt, truncate with
      | none, none => some (.error .UnsetMaxNewTokens)
      | _, _ =>
        let m := match mnt with
                 | some m0 => m0
                 | none => v.max_total_tokens - truncate.getD 0
        let L := truncate.getD v.max_input_length
        if L + m > v.max_total_tokens then
          some (.error (.MaxNewTokens (v.max_total_tokens - v.max_input_length) m))
        else some (.ok (inputs, L, m)) := by
  unfold validate_input
  rw [hnotok]
  dsimp only
  cases mnt with
  | some m0 =>
    cases truncate with
    | some t =>
      simp only [Option.getD_some] at htr hadd ⊢
      unfold checkedSub
      rw [u32cast_eq_of_lt (lt_of_le_of_lt (le_trans htr hsane) h32),
          u32cast_eq_of_lt hadd, u32cast_eq_of_lt h32, if_pos hsane]
    | none =>
      simp only [Option.getD_some, Option.getD_none] at htr hadd ⊢
      unfold checkedSub
      rw [u32cast_eq_of_lt (lt_of_le_of_lt hsane h32), u32cast_eq_of_lt hadd,
          u32cast_eq_of_lt h32, if_pos hsane]
  | none =>
    cases truncate with
    | some t =>
      simp only [Option.getD_some, Option.getD_none] at htr hadd ⊢
      unfold checkedSub
      rw [u32cast_eq_of_lt (lt_of_le_of_lt (le_trans htr hsane) h32),
          u32cast_eq_of_lt (lt_of_le_of_lt (Nat.sub_le _ _) h32),
          Nat.add_sub_cancel' (le_trans htr hsane),
          u32cast_eq_of_lt h32, if_pos hsane]
    | none => rfl

/-- C6, witness: scenario S1 — no tokenizer, prompt "Hello",
`max_new_tokens = 10` under the boundary configuration yields
`MaxNewTokens(1, 10)`. -/
theorem C6_witness :
    validate_input cfgA "Hello" none (some 10) = some (.error (.MaxNewTokens 1 10)) := by
  rw [C6_no_tokenizer cfgA "Hello" none (some 10) rfl (by decide) (by decide) (by decide)
    (by decide)]
  rfl

/-- C7: a user-supplied `top_p` (resp. `typical_p`) is accepted exactly when
it lies strictly between 0 and 1, any other supplied value is rejected with
`TopP` (resp. `TypicalP`) — in particular the value 1 — while an omitted one
resolves to exactly 1 in the emitted record. -/
theorem C7_top_p_typical_p (v : Validation) (req : GenerateRequest) (fresh : Nat) :
    (∀ x : ℚ, req.parameters.top_p = some x →
      ((checked_top_p req.parameters = .ok x ↔ 0 < x ∧ x < 1) ∧
       (¬(0 < x ∧ x < 1) → checked_top_p req.parameters = .error .TopP))) ∧
    (∀ x : ℚ, req.parameters.typical_p = some x →
      ((checked_typical_p req.parameters = .ok x ↔ 0 < x ∧ x < 1) ∧
       (¬(0 < x ∧ x < 1) → checked_typical_p req.parameters = .error .TypicalP))) ∧
    (req.parameters.top_p = none → ∀ out, validate v req fresh = some (.ok out) →
      out.parameters.top_p = 1) ∧
    (req.parameters.typical_p = none → ∀ out, validate v req fresh = some (.ok out) →
      out.parameters.typical_p = 1) := by
  have key : ∀ x : ℚ, (0 < x ∧ x < 1) ↔ ¬(x ≤ 0 ∨ 1 ≤ x) := by
    intro x
    constructor
    · rintro ⟨h1, h2⟩ (h | h) <;> linarith
    · intro h
      push_neg at h
      exact h
  refine ⟨?_, ?_, ?_, ?_⟩
  · intro x hx
    unfold checked_top_p
    rw [hx]
    dsimp only
    by_cases hc : x ≤ 0 ∨ 1 ≤ x
    · rw [if_pos hc]
      refine ⟨⟨fun h => absurd h (by simp), fun hb => absurd hc ((key x).mp hb)⟩, fun _ => rfl⟩
    · rw [if_neg hc]
      exact ⟨⟨fun _ => (key x).mpr hc, fun _ => rfl⟩, fun hb => absurd ((key x).mpr hc) hb⟩
  · intro x hx
    unfold checked_typical_p
    rw [hx]
    dsimp only
    by_cases hc : x ≤ 0 ∨ 1 ≤ x
    · rw [if_pos hc]
      refine ⟨⟨fun h => absurd h (by simp), fun hb => absurd hc ((key x).mp hb)⟩, fun _ => rfl⟩
    · rw [if_neg hc]
      exact ⟨⟨fun _ => (key x).mpr hc, fun _ => rfl⟩, fun hb => absurd ((key x).mpr hc) hb⟩
  · intro hnone out hok
    obtain ⟨r, _, _, _, _, _, _, _, hp, _, _, _, _, _, htp, _, _, _, _, _⟩ :=
      validate_ok_inv hok
    obtain ⟨_, hcp, _, _, _, _, _⟩ := validate_parameters_ok_inv hp
    have h1 : checked_top_p req.parameters = .ok 1 := by
      unfold checked_top_p
      rw [hnone]
    rw [h1] at hcp
    simp only [Except.ok.injEq] at hcp
    rw [htp, ← hcp]
  · intro hnone out hok
    obtain ⟨r, _, _, _, _, _, _, _, hp, _, _, _, _, _, _, htyp, _, _, _, _⟩ :=
      validate_ok_inv hok
    obtain ⟨_, _, hcp, _, _, _, _⟩ := validate_parameters_ok_inv hp
    have h1 : checked_typical_p req.parameters = .ok 1 := by
      unfold checked_typical_p
      rw [hnone]
    rw [h1] at hcp
    simp only [Except.ok.injEq] at hcp
    rw [htyp, ← hcp]

/-- C7, witness: `top_p = 1.0` is rejected with `TopP` (scenario S4), and
the accepted all-defaults request emits `top_p = 1` and `typical_p = 1`. -/
theorem C7_witness :
    checked_top_p reqTopP1.parameters = .error .TopP ∧
    outTok.parameters.top_p = 1 ∧ outTok.parameters.typical_p = 1 := by
  refine ⟨?_, ?_, ?_⟩
  · exact ((C7_top_p_typical_p cfgA reqTopP1 0).1 1 rfl).2 (by norm_num)
  · exact (C7_top_p_typical_p cfgTok reqTokOk 0).2.2.1 rfl outTok rfl
  · exact (C7_top_p_typical_p cfgTok reqTokOk 0).2.2.2 rfl outTok rfl

/-- C8: grammar handling.  With support disabled any grammar yields
`Grammar`; with support enabled a JSON-Schema payload given as a string is
re-parsed, given as an object it is accepted as-is, any other JSON shape is
rejected with `Grammar`; a schema failing draft 2020-12 compilation is
rejected with `InvalidGrammar`; and every accepted JSON-Schema grammar (both
at the grammar handler and in the record `validate` emits) carries the
`regex` proto kind, never `json`. -/
theorem C8_grammar_handling (v : Validation) (g : GrammarType) (j : Json)
    (s msg : String) (kvs : List (String × Json))
    (req : GenerateRequest) (fresh : Nat) :
    (v.disable_grammar_support = true → handle_grammar v (some g) = .error .Grammar) ∧
    (v.disable_grammar_support = false →
      handle_grammar v (some (.json (.str s))) =
        (match v.json_from_str s with
         | .error e => .error (.InvalidGrammar e)
         | .ok parsed => compile_json_schema_grammar v parsed)) ∧
    (v.disable_grammar_support = false →
      handle_grammar v (some (.json (.obj kvs))) = compile_json_schema_grammar v (.obj kvs)) ∧
    (v.disable_grammar_support = false → j.isStr = false → j.isObj = false →
      handle_grammar v (some (.json j)) = .error .Grammar) ∧
    (v.jsonschema_compile j = .error msg →
      compile_json_schema_grammar v j = .error (.InvalidGrammar msg)) ∧
    (∀ res, handle_grammar v (some (.json j)) = .ok res → res.2.1 = .regex) ∧
    (∀ out j2, req.parameters.grammar = some (.json j2) →
      validate v req fresh = some (.ok out) → out.parameters.grammar_type = .regex) := by
  refine ⟨?_, ?_, ?_, ?_, ?_, ?_, ?_⟩
  · intro hd
    unfold handle_grammar
    simp [hd]
  · intro hd
    unfold handle_grammar
    cases hps : v.json_from_str s with
    | error e => simp [hd, hps]
    | ok parsed => simp [hd, hps]
  · intro hd
    unfold handle_grammar
    simp [hd]
  · intro hd hs ho
    unfold handle_grammar
    cases j <;> simp_all [Json.isStr, Json.isObj]
  · intro hc
    unfold compile_json_schema_grammar
    rw [hc]
  · intro res h
    exact handle_grammar_json_ok_kind h
  · intro out j2 hg2 hok
    obtain ⟨r, _, _, _, _, g0, gt, stm, hp, _, _, _, hg, _, _, _, hgt, _, _, _⟩ :=
      validate_ok_inv hok
    rw [hg2] at hg
    have hk := handle_grammar_json_ok_kind hg
    rw [hgt]
    simpa using hk

/-- C8, witness: the grammar behaviours at concrete configurations — support
disabled rejects a regex grammar; under `cfgG` a string payload is re-parsed
to the object the parser returns, an object is accepted, a `null` payload is
rejected; a failing schema compiler yields `InvalidGrammar`; and the
record emitted for `reqGram` carries the `regex` kind. -/
theorem C8_witness :
    handle_grammar cfgA (some (.regex "ab")) = .error .Grammar ∧
    handle_grammar cfgG (some (.json (.str "x"))) = compile_json_schema_grammar cfgG (.obj []) ∧
    handle_grammar cfgG (some (.json (.obj []))) = compile_json_schema_grammar cfgG (.obj []) ∧
    handle_grammar cfgG (some (.json .null)) = .error .Grammar ∧
    compile_json_schema_grammar cfgBadSchema .null = .error (.InvalidGrammar "bad schema") ∧
    (("rx", ProtoGrammarType.regex,
        some ({ start_states := [], tokens := [], end_states := [] } : StatesToTokenMaps)) :
      String × ProtoGrammarType × Option StatesToTokenMaps).2.1 = .regex ∧
    outGram.parameters.grammar_type = .regex := by
  have thmA := C8_grammar_handling cfgA (.regex "ab") .null "x" "bad schema" [] reqGram 0
  have thmG := C8_grammar_handling cfgG (.regex "ab") .null "x" "bad schema" [] reqGram 0
  have thmG2 := C8_grammar_handling cfgG (.regex "ab") (.obj []) "x" "bad schema" [] reqGram 0
  have thmB := C8_grammar_handling cfgBadSchema (.regex "ab") .null "x" "bad schema" [] reqGram 0
  refine ⟨thmA.1 rfl, ?_, thmG.2.2.1 rfl, thmG.2.2.2.1 rfl rfl rfl, thmB.2.2.2.2.1 rfl,
    thmG2.2.2.2.2.2.1 ("rx", ProtoGrammarType.regex,
      some { start_states := [], tokens := [], end_states := [] }) rfl,
    thmG2.2.2.2.2.2.2 outGram (.obj []) rfl rfl⟩
  rw [thmG.2.1 rfl]
  rfl

/-- C9: with a tokenizer and `truncate = k` smaller than the encoding
length, `prepare_input` keeps exactly the last `k` token ids and decodes
them (skip-special-tokens false) into the returned text, so the
`input_length` accepted by `validate_input` equals `k` and the returned
inputs are the decode of the kept ids; with `k` at least the encoding
length the prompt is returned unchanged. -/
theorem C9_left_truncation (v : Validation) (tok : Tokenizer) (prompt decoded : String)
    (k : Nat) (ids : List Nat) (mnt : Option Nat)
    (henc : tok.encode prompt true = .ok ids) :
    (k < ids.length → tok.decode (ids.drop (ids.length - k)) false = .ok decoded →
      prepare_input prompt (some k) tok = .ok (ids.drop (ids.length - k), decoded) ∧
      (ids.drop (ids.length - k)).length = k) ∧
    (ids.length ≤ k → prepare_input prompt (some k) tok = .ok (ids, prompt)) ∧
    (v.tokenizer = some tok → k < ids.length →
      tok.decode (ids.drop (ids.length - k)) false = .ok decoded →
      ∀ s L M, validate_input v prompt (some k) mnt = some (.ok (s, L, M)) →
        L = k ∧ s = decoded) := by
  have hprep : k < ids.length → tok.decode (ids.drop (ids.length - k)) false = .ok decoded →
      prepare_input prompt (some k) tok = .ok (ids.drop (ids.length - k), decoded) := by
    intro hk hdec
    unfold prepare_input
    rw [henc]
    dsimp only
    rw [if_pos hk, hdec]
  refine ⟨?_, ?_, ?_⟩
  · intro hk hdec
    refine ⟨hprep hk hdec, ?_⟩
    rw [List.length_drop]
    omega
  · intro hk
    unfold prepare_input
    rw [henc]
    dsimp only
    rw [if_neg (by omega : ¬ k < ids.length)]
  · intro htok hk hdec s L M hv
    unfold validate_input at hv
    rw [htok] at hv
    dsimp only at hv
    rw [hprep hk hdec] at hv
    dsimp only at hv
    split at hv
    · simp at hv
    · split at hv
      · simp at hv
      · simp only [Option.some.injEq, Except.ok.injEq, Prod.mk.injEq] at hv
        obtain ⟨hs, hL, -⟩ := hv
        refine ⟨?_, hs.symm⟩
        rw [← hL, List.length_drop]
        omega

/-- C9, witness: the character tokenizer on "abcd" with `truncate = 2` keeps
the last two ids and decodes them to "cd"; with `truncate = 9` the prompt is
unchanged; and `validate_input` reports `input_length = 2` with inputs
"cd". -/
theorem C9_witness :
    (prepare_input "abcd" (some 2) tok2 = .ok ([99, 100], "cd") ∧
      (([97, 98, 99, 100] : List Nat).drop 2).length = 2) ∧
    prepare_input "abcd" (some 9) tok2 = .ok ([97, 98, 99, 100], "abcd") ∧
    ((2 : Nat) = 2 ∧ "cd" = "cd") := by
  refine ⟨?_, ?_, ?_⟩
  · exact (C9_left_truncation cfgTok2 tok2 "abcd" "cd" 2 [97, 98, 99, 100] none rfl).1
      (by decide) rfl
  · exact (C9_left_truncation cfgTok2 tok2 "abcd" "cd" 9 [97, 98, 99, 100] none rfl).2.1
      (by decide)
  · exact (C9_left_truncation cfgTok2 tok2 "abcd" "cd" 2 [97, 98, 99, 100] (some 5) rfl).2.2
      rfl (by decide) rfl "cd" 2 5 rfl

/-- C10: for any configuration with `max_input_length ≤ max_total_tokens`,
`validate_input` without a tokenizer is total — the unchecked subtraction
`max_total_tokens - max_input_length` in the `MaxNewTokens` error path
cannot underflow, so no request reaching that branch panics. -/
theorem C10_no_panic (v : Validation) (inputs : String) (truncate mnt : Option Nat)
    (hnotok : v.tokenizer = none) (hcfg : v.max_input_length ≤ v.max_total_tokens) :
    validate_input v inputs truncate mnt ≠ none := by
  unfold validate_input
  rw [hnotok]
  dsimp only
  repeat' split
  all_goals simp_all [checkedSub]

/-- C10, witness: the S1 request does not panic under the boundary
configuration. -/
theorem C10_witness : validate_input cfgA "Hello" none (some 10) ≠ none :=
  C10_no_panic cfgA "Hello" none (some 10) rfl (by decide)

end TGI
